import Mathlib

/-!
Shallow embedding of `src/vs/workbench/contrib/chat/browser/chatInlineAnchorWidget.ts`:
the inline chat anchor widget.  The data model mirrors the TypeScript types, the
constructor body (lines 80-208) is embedded as a pure function from the injected
collaborator services (modelled as an `Env` of response functions) to the observable
construction result (classified data, display data, bound context keys, registered
subscriptions, pending async work).  The keybinding action `run` bodies and the
asynchronous stat continuation are embedded as separate functions.
-/

namespace ChatAnchor

/-- Mirrors `IRange` from `editor/common/core/range.ts`: 1-based line/column bounds. -/
structure IRange where
  startLineNumber : Nat
  startColumn : Nat
  endLineNumber : Nat
  endColumn : Nat
deriving DecidableEq

/-- Mirrors the components of `URI` from `base/common/uri.ts`. -/
structure URI where
  scheme : String
  authority : String
  path : String
  query : String
  fragment : String
deriving DecidableEq

/-- Mirrors `uri.with({ fragment })` (line 179): replace only the fragment component. -/
def URI.with_fragment (u : URI) (f : String) : URI :=
  { u with fragment := f }

/-- Simplified rendering of `URI.toString()` (used only at line 144 to store the
resource value in the `chatAnchorResource` context key; no claim depends on the
exact encoding, only on whether the key is set). -/
def URI.toStr (u : URI) : String :=
  u.scheme ++ "://" ++ u.authority ++ u.path ++
    (if u.query = "" then "" else "?" ++ u.query) ++
    (if u.fragment = "" then "" else "#" ++ u.fragment)

/-- Mirrors `Location` from `editor/common/languages.ts`: `range` is a required field. -/
structure Location where
  uri : URI
  range : IRange
deriving DecidableEq

/-- Mirrors `IWorkspaceSymbol` from `workbench/contrib/search/common/search.ts`.
`kind` is the numeric `SymbolKind`. -/
structure IWorkspaceSymbol where
  name : String
  containerName : Option String
  kind : Nat
  location : Location
deriving DecidableEq

/-- The payload type `IChatContentInlineReference.inlineReference`:
`URI | Location | IWorkspaceSymbol` (spec data model: `\x7b uri, range? \x7d`,
a symbol descriptor, or a bare URI).  `loc` is the location-like shape carrying a
top-level `uri` field (range kept optional, as in the spec's `\x7b uri, range? \x7d`);
`sym` carries a top-level `name` field; `uriOnly` is a bare `URI` value, which has
neither a `uri` nor a `name` property. -/
inductive InlineReferencePayload
  | loc (uri : URI) (range : Option IRange)
  | sym (s : IWorkspaceSymbol)
  | uriOnly (u : URI)
deriving DecidableEq

/-- The duck-typing test `'uri' in inlineReference.inlineReference` (line 82):
only the location-like shape has a top-level `uri` property. -/
def hasUriField : InlineReferencePayload → Bool
  | .loc _ _ => true
  | .sym _ => false
  | .uriOnly _ => false

/-- The duck-typing test `'name' in inlineReference.inlineReference` (line 84):
only `IWorkspaceSymbol` has a top-level `name` property. -/
def hasNameField : InlineReferencePayload → Bool
  | .loc _ _ => false
  | .sym _ => true
  | .uriOnly _ => false

/-- Mirrors `ContentRefData` (lines 49-55): tagged union of a symbol reference and a
resource reference with optional range. -/
inductive ContentRefData
  | symbol (s : IWorkspaceSymbol)
  | resource (uri : URI) (range : Option IRange)
deriving DecidableEq

/-- The classification at lines 82-86:
`'uri' in x ? x : 'name' in x ? \x7b kind: 'symbol', symbol: x \x7d : \x7b uri: x \x7d`.
The first branch keeps the payload as resource data, the second wraps the symbol
descriptor, the default arm treats the whole payload as a bare URI. -/
def classify : InlineReferencePayload → ContentRefData
  | .loc u r => .resource u r
  | .sym s => .symbol s
  | .uriOnly u => .resource u none

/-- Mirrors `FileKind` from `platform/files/common/files.ts` (only the two values
used at line 151). -/
inductive FileKind
  | file
  | folder
deriving DecidableEq

/-- Mirrors `ITextModel` as far as the widget observes it: identity plus the
`isDisposed()` flag read at line 114. -/
structure Model where
  id : Nat
  isDisposed : Bool
deriving DecidableEq

/-- The injected collaborator services (constructor parameters, lines 65-79),
reduced to the response functions the constructor actually calls:
`labelService.getUriBasenameLabel` / `getUriLabel(..., relative)`,
`getIconClasses` (once with a uri+file kind at line 152, once with a theme icon at
line 107), `SymbolKinds.toIcon`, `modelService.getModel`, and the two
language-feature registries' `has` queries. -/
structure Env where
  getUriBasenameLabel : URI → String
  getUriLabelRelative : URI → String
  getIconClassesFile : URI → FileKind → List String
  getIconClassesIcon : String → List String
  symbolKindToIcon : Nat → String
  getModel : URI → Option Model
  definitionProviderHas : Model → Bool
  referenceProviderHas : Model → Bool

/-- The two capability context keys bound at lines 111-112.  `none` means the key
was never bound in the widget's scoped context; `some b` is its current value
(binding a `RawContextKey<boolean>` starts it at its default `false`). -/
structure ProviderKeys where
  hasDefinitionProvider : Option Bool
  hasReferenceProvider : Option Bool
deriving DecidableEq

/-- The `updateContents` closure (lines 113-120): bail out if the captured model is
disposed, otherwise set `hasDefinitionProvider` from
`languageFeaturesService.definitionProvider.has(model)` and `hasReferenceProvider`
from `languageFeaturesService.definitionProvider.has(model)` as well — the source
queries the definition-provider registry for both keys (lines 118-119). -/
def updateContents (env : Env) (model : Model) (keys : ProviderKeys) : ProviderKeys :=
  if model.isDisposed then keys
  else
    { hasDefinitionProvider := some (env.definitionProviderHas model)
      hasReferenceProvider := some (env.definitionProviderHas model) }

/-- The scoped context-key state the constructor leaves behind:
`chatAnchorResource` (bound line 89, set line 144), the `ResourceContextKey`
helper (lines 142-143), `ExplorerFolderContext` (line 154), and the two
capability keys.  `none` everywhere means the key was never bound/set. -/
structure ContextState where
  chatAnchorResource : Option String
  resourceContextUri : Option URI
  explorerFolderContext : Option Bool
  providerKeys : ProviderKeys
deriving DecidableEq

def emptyContext : ContextState :=
  { chatAnchorResource := none
    resourceContextUri := none
    explorerFolderContext := none
    providerKeys := { hasDefinitionProvider := none, hasReferenceProvider := none } }

/-- Display data derived in the constructor: the label text (`iconText`), the icon
class list, and the `data-href` target `location.uri.with(\x7b fragment \x7d)`
(lines 95-96, 174-179). -/
structure DisplayData where
  iconText : String
  iconClasses : List String
  linkTarget : URI
deriving DecidableEq

/-- The fragment computation at line 178:
`location.range ? startLineNumber-endLineNumber : ''`. -/
def rangeFragment : Option IRange → String
  | some r => toString r.startLineNumber ++ "-" ++ toString r.endLineNumber
  | none => ""

/-- Everything observable about a constructed widget: its classified `data`, the
derived display data, the scoped context-key state, the model captured by
`updateContents` (if any), which registry change events it subscribed to
(lines 122-123), the telemetry event its click listener would fire, the uri of the
in-flight `fileService.stat` call (line 155, resources only), and the hover label
(line 199). -/
structure WidgetResult where
  data : ContentRefData
  display : DisplayData
  context : ContextState
  capturedModel : Option Model
  subscribesDefinitionProviderChange : Bool
  subscribesReferenceProviderChange : Bool
  clickTelemetryEventName : String
  clickTelemetryAnchorId : String
  pendingStatUri : Option URI
  hoverLabel : String
deriving DecidableEq

/-- The constructor body from line 88 on, as a function of the already-classified
`data` (the source computes `this.data` first and branches on `this.data.kind`).
`anchorId` stands for the lazily generated uuid — the only per-instance state. -/
def constructFromData (env : Env) (anchorId : String) (data : ContentRefData) :
    WidgetResult :=
  match data with
  | .symbol s =>
    -- lines 101-136: symbol branch
    let locationUri := s.location.uri
    let locationRange : Option IRange := some s.location.range
    let iconText := s.name
    let iconClasses :=
      "codicon" :: env.getIconClassesIcon (env.symbolKindToIcon s.kind)
    let model := env.getModel locationUri
    let providerKeys : ProviderKeys :=
      match model with
      | some m =>
        updateContents env m
          { hasDefinitionProvider := some false, hasReferenceProvider := some false }
      | none => { hasDefinitionProvider := none, hasReferenceProvider := none }
    { data := data
      display :=
        { iconText := iconText
          iconClasses := iconClasses
          linkTarget := locationUri.with_fragment (rangeFragment locationRange) }
      context := { emptyContext with providerKeys := providerKeys }
      capturedModel := model
      subscribesDefinitionProviderChange := model.isSome
      subscribesReferenceProviderChange := model.isSome
      clickTelemetryEventName := "chat.inlineAnchor.openSymbol"
      clickTelemetryAnchorId := anchorId
      pendingStatUri := none
      hoverLabel := env.getUriLabelRelative locationUri }
  | .resource uri range =>
    -- lines 137-171: resource branch
    let label := env.getUriBasenameLabel uri
    let iconText :=
      match range with
      | some r =>
        label ++ "#" ++ toString r.startLineNumber ++ "-" ++ toString r.endLineNumber
      | none => label
    let fileKind := if uri.path.endsWith "/" then FileKind.folder else FileKind.file
    let iconClasses := env.getIconClassesFile uri fileKind
    { data := data
      display :=
        { iconText := iconText
          iconClasses := iconClasses
          linkTarget := uri.with_fragment (rangeFragment range) }
      context :=
        { chatAnchorResource := some uri.toStr
          resourceContextUri := some uri
          explorerFolderContext := some false
          providerKeys := { hasDefinitionProvider := none, hasReferenceProvider := none } }
      capturedModel := none
      subscribesDefinitionProviderChange := false
      subscribesReferenceProviderChange := false
      clickTelemetryEventName := "chat.inlineAnchor.openResource"
      clickTelemetryAnchorId := anchorId
      pendingStatUri := some uri
      hoverLabel := env.getUriLabelRelative uri }

/-- The full constructor: classify the payload (lines 82-86), then run the rest of
the body. -/
def constructWidget (env : Env) (anchorId : String) (p : InlineReferencePayload) :
    WidgetResult :=
  constructFromData env anchorId (classify p)

/-- The two registry change notifications the widget may subscribe to
(lines 122-123). -/
inductive ProviderEvent
  | definitionProviderChange
  | referenceProviderChange
deriving DecidableEq

/-- Delivery of one registry change notification after construction: the handler
(`updateContents`, over the model captured at construction) runs only if the widget
registered a listener for that event; the registries' current state is the `env`
at delivery time. -/
def stepProviderEvent (env : Env) (w : WidgetResult) (keys : ProviderKeys)
    (e : ProviderEvent) : ProviderKeys :=
  let subscribed :=
    match e with
    | .definitionProviderChange => w.subscribesDefinitionProviderChange
    | .referenceProviderChange => w.subscribesReferenceProviderChange
  if subscribed then
    match w.capturedModel with
    | some m => updateContents env m keys
    | none => keys
  else keys

/-- A whole post-construction lifetime of registry notifications, each delivered
under the registry state current at that moment. -/
def runProviderEvents (w : WidgetResult) (keys : ProviderKeys) :
    List (Env × ProviderEvent) → ProviderKeys
  | [] => keys
  | (env, e) :: rest => runProviderEvents w (stepProviderEvent env w keys e) rest

/-- Result of `fileService.stat(uri)` as far as the widget reads it:
`stat.isDirectory` (line 157). -/
structure FileStat where
  isDirectory : Bool
deriving DecidableEq

/-- The continuation chain at lines 155-159:
`.then(stat => isFolderContext.set(stat.isDirectory)).catch(() => \x7b \x7d)`.
Takes the current `ExplorerFolderContext` value and the settled promise; a
rejection is swallowed and leaves the value untouched.  Total by construction —
no exception escapes. -/
def resolveStat (current : Option Bool) (result : Except String FileStat) :
    Option Bool :=
  match result with
  | .ok stat => some stat.isDirectory
  | .error _ => current

/-- VS Code evaluates a bare `RawContextKey<string>` precondition (line 261 and
line 291 use `chatResourceContextKey` directly) as truthiness of the stored value:
an unset key or an empty string is falsy. -/
def contextKeyTruthy : Option String → Bool
  | none => false
  | some s => s != ""

/-- `OPEN_TO_SIDE_COMMAND_ID` from `workbench/contrib/files/browser/fileConstants.ts`. -/
def OPEN_TO_SIDE_COMMAND_ID : String := "explorer.openToSide"

/-- Observable effect of `CopyResourceAction.run`: a `clipboardService.writeResources`
call (line 278). -/
inductive CopyEffect
  | writeResources (uris : List URI)
deriving DecidableEq

/-- `CopyResourceAction.run` (lines 269-279): resolve the target from
`chatWidgetService.lastFocusedAnchor`; return without effect when there is no
anchor or its data is a symbol, else write the resource uri to the clipboard. -/
def copyResourceActionRun (lastFocusedAnchor : Option ContentRefData) :
    Option CopyEffect :=
  match lastFocusedAnchor with
  | none => none
  | some (.symbol _) => none
  | some (.resource u _) => some (.writeResources [u])

/-- Observable effect of the open-to-side action: a
`commandService.executeCommand(OPEN_TO_SIDE_COMMAND_ID, uri)` call (line 311). -/
inductive OpenToSideEffect
  | executeCommand (commandId : String) (uri : URI)
deriving DecidableEq

/-- The open-to-side `Action2.run` (lines 302-312): same guard as Copy, then
execute the open-to-side command on the resource uri. -/
def openToSideActionRun (lastFocusedAnchor : Option ContentRefData) :
    Option OpenToSideEffect :=
  match lastFocusedAnchor with
  | none => none
  | some (.symbol _) => none
  | some (.resource u _) => some (.executeCommand OPEN_TO_SIDE_COMMAND_ID u)

/-! Concrete sample values used by witnesses and counterexamples. -/

def uriEx : URI :=
  { scheme := "file", authority := "", path := "/a/b.txt", query := "", fragment := "" }

def rangeEx : IRange :=
  { startLineNumber := 3, startColumn := 1, endLineNumber := 5, endColumn := 1 }

def symEx : IWorkspaceSymbol :=
  { name := "foo"
    containerName := none
    kind := 11
    location := { uri := { uriEx with path := "/a/b.ts" }, range := rangeEx } }

def modelEx : Model := { id := 0, isDisposed := false }

/-- A concrete collaborator environment: basename of the path, fixed icon tables,
the sample model loaded for every uri, a definition provider registered but no
reference provider. -/
def envEx : Env :=
  { getUriBasenameLabel := fun u => (u.path.splitOn "/").getLastD "",
    getUriLabelRelative := fun u => u.path,
    getIconClassesFile := fun _ k => [match k with | .file => "file-icon" | .folder => "folder-icon"],
    getIconClassesIcon := fun s => [s],
    symbolKindToIcon := fun _ => "symbol-interface",
    getModel := fun _ => some modelEx,
    definitionProviderHas := fun _ => true,
    referenceProviderHas := fun _ => false }

/-- Like `envEx` but with no document model loaded for any uri. -/
def envNoModel : Env :=
  { envEx with getModel := fun _ => none }

/-! Theorems, one per claim. -/

/-- Claim C1: every payload carrying a `name` field classifies to the `Symbol`
variant wrapping that descriptor, and every payload carrying a `uri` field (with
its optional range) classifies to the `Resource` variant; `classify` is a pure
total Lean function, hence deterministic. -/
theorem classification_by_shape (p : InlineReferencePayload) :
    (hasNameField p = true →
      ∃ s, p = InlineReferencePayload.sym s ∧ classify p = ContentRefData.symbol s) ∧
    (hasUriField p = true →
      ∃ u r, p = InlineReferencePayload.loc u r ∧
        classify p = ContentRefData.resource u r) := by
  cases p <;> simp [hasNameField, hasUriField, classify]

/-- Witness for C1 at a concrete symbol payload and a concrete location payload. -/
theorem classification_by_shape_witness :
    hasNameField (InlineReferencePayload.sym symEx) = true ∧
    (∃ s, InlineReferencePayload.sym symEx = InlineReferencePayload.sym s ∧
      classify (InlineReferencePayload.sym symEx) = ContentRefData.symbol s) ∧
    hasUriField (InlineReferencePayload.loc uriEx (some rangeEx)) = true ∧
    (∃ u r, InlineReferencePayload.loc uriEx (some rangeEx) =
        InlineReferencePayload.loc u r ∧
      classify (InlineReferencePayload.loc uriEx (some rangeEx)) =
        ContentRefData.resource u r) :=
  ⟨rfl, (classification_by_shape (InlineReferencePayload.sym symEx)).1 rfl,
    rfl, (classification_by_shape (InlineReferencePayload.loc uriEx (some rangeEx))).2 rfl⟩

/-- Claim C2 (code bug): `updateContents` (lines 113-120) sets BOTH capability keys
from `languageFeaturesService.definitionProvider.has(model)`; with a definition
provider registered and no reference provider, the `hasReferenceProvider` key
becomes `true` even though the reference-provider registry reports `false`
(line 119 is a copy-paste of line 118, contradicting the key's own name). -/
theorem hasReferenceProvider_set_from_definition_registry :
    envEx.referenceProviderHas modelEx = false ∧
    envEx.definitionProviderHas modelEx = true ∧
    (constructFromData envEx "a" (ContentRefData.symbol symEx)).context.providerKeys =
      { hasDefinitionProvider := some true, hasReferenceProvider := some true } :=
  ⟨rfl, rfl, rfl⟩

/-- Claim C3: for a resource reference with a range, the label is
`basename#start-end` and the link-target fragment is `start-end`; without a range
the label is the bare basename and the fragment is empty (lines 146-149, 178). -/
theorem resource_label_and_fragment (env : Env) (anchorId : String) (u : URI)
    (r : IRange) :
    ((constructFromData env anchorId (ContentRefData.resource u (some r))).display.iconText =
      env.getUriBasenameLabel u ++ "#" ++ toString r.startLineNumber ++ "-" ++
        toString r.endLineNumber) ∧
    ((constructFromData env anchorId (ContentRefData.resource u (some r))).display.linkTarget.fragment =
      toString r.startLineNumber ++ "-" ++ toString r.endLineNumber) ∧
    ((constructFromData env anchorId (ContentRefData.resource u none)).display.iconText =
      env.getUriBasenameLabel u) ∧
    ((constructFromData env anchorId (ContentRefData.resource u none)).display.linkTarget.fragment =
      "") :=
  ⟨rfl, rfl, rfl, rfl⟩

/-- Counterexample to claim C4: for the concrete symbol `symEx` (whose location has
range 3-5 and a fragment-free uri), the `data-href` target is NOT the bare
location uri — line 178 computes the fragment from `location.range`, which a
symbol's `Location` always carries, so the fragment `"3-5"` IS added. -/
theorem symbol_fragment_counterexample :
    (constructFromData envEx "a" (ContentRefData.symbol symEx)).display.linkTarget.fragment =
      "3-5" ∧
    symEx.location.uri.fragment = "" ∧
    (constructFromData envEx "a" (ContentRefData.symbol symEx)).display.linkTarget ≠
      symEx.location.uri := by
  refine ⟨rfl, rfl, ?_⟩
  decide

/-- Claim C4 as amended: for every symbol reference the link target is the symbol's
location uri with fragment `"<startLine>-<endLine>"` taken from the location's
(always present) range — the same fragment rule as the resource branch, not a
fragment-free uri. -/
theorem symbol_link_target_fragment (env : Env) (anchorId : String)
    (s : IWorkspaceSymbol) :
    (constructFromData env anchorId (ContentRefData.symbol s)).display.linkTarget =
      URI.with_fragment s.location.uri
        (toString s.location.range.startLineNumber ++ "-" ++
          toString s.location.range.endLineNumber) :=
  rfl

/-- Claim C5: the Copy and Open-to-Side keybinding actions take no argument and
resolve their target from the last-focused anchor; with no tracked anchor, or a
symbol anchor, both runs produce no clipboard write and no command execution
(lines 273-276, 306-309). -/
theorem keybinding_actions_silent_noop (s : IWorkspaceSymbol) :
    copyResourceActionRun none = none ∧
    openToSideActionRun none = none ∧
    copyResourceActionRun (some (ContentRefData.symbol s)) = none ∧
    openToSideActionRun (some (ContentRefData.symbol s)) = none :=
  ⟨rfl, rfl, rfl, rfl⟩

/-- Counterexample to claim C6: the payload `uriOnly uriEx` has neither a `name`
nor a `uri` field, yet construction does not fail — the default arm of lines 82-86
wraps the payload as `\x7b uri: payload \x7d` and a widget with resource data is
produced. -/
theorem malformed_shape_counterexample :
    hasNameField (InlineReferencePayload.uriOnly uriEx) = false ∧
    hasUriField (InlineReferencePayload.uriOnly uriEx) = false ∧
    (constructWidget envEx "a" (InlineReferencePayload.uriOnly uriEx)).data =
      ContentRefData.resource uriEx none :=
  ⟨rfl, rfl, rfl⟩

/-- Claim C6 as amended: a payload with neither a `name` nor a `uri` field is
treated as a bare URI — classification's default arm yields the `Resource` variant
over the payload itself with no range, and construction always succeeds; there is
no fail-fast path in the classifier. -/
theorem bare_payload_classified_as_resource (env : Env) (anchorId : String)
    (u : URI) :
    classify (InlineReferencePayload.uriOnly u) = ContentRefData.resource u none ∧
    (constructWidget env anchorId (InlineReferencePayload.uriOnly u)).data =
      ContentRefData.resource u none :=
  ⟨rfl, rfl⟩

/-- Claim C7: for every resource reference the constructor binds
`ExplorerFolderContext` at its synchronous default `false` and issues a stat on the
resource uri; a rejected stat promise is swallowed by the `.catch` handler
(lines 155-159), leaving the flag at its current value — `resolveStat` is total,
so no exception escapes. -/
theorem stat_failure_swallowed (env : Env) (anchorId : String) (u : URI)
    (range : Option IRange) (err : String) :
    (constructFromData env anchorId (ContentRefData.resource u range)).context.explorerFolderContext =
      some false ∧
    resolveStat
      (constructFromData env anchorId (ContentRefData.resource u range)).context.explorerFolderContext
      (Except.error err) =
      (constructFromData env anchorId (ContentRefData.resource u range)).context.explorerFolderContext ∧
    (constructFromData env anchorId (ContentRefData.resource u range)).pendingStatUri =
      some u :=
  ⟨rfl, rfl, rfl⟩

/-- Claim C8: two widgets constructed from the same payload under the same
collaborator responses derive the same `DisplayData` (label, icon classes, link
target), whatever their per-instance anchor ids — the only per-instance state, the
lazily generated uuid, never flows into display derivation. -/
theorem display_deterministic (env : Env) (id1 id2 : String)
    (p : InlineReferencePayload) :
    (constructWidget env id1 p).display = (constructWidget env id2 p).display := by
  cases p <;> rfl

/-- Claim C9: the `chatAnchorResource` context key is set only in the resource
branch (line 144); for every symbol anchor it stays unset for the widget's
lifetime, so the bare-key precondition of the Copy / Open-to-Side keybindings
evaluates falsy inside a symbol anchor's scoped context. -/
theorem symbol_chat_resource_context_unset (env : Env) (anchorId : String)
    (s : IWorkspaceSymbol) :
    (constructFromData env anchorId (ContentRefData.symbol s)).context.chatAnchorResource =
      none ∧
    contextKeyTruthy
      (constructFromData env anchorId (ContentRefData.symbol s)).context.chatAnchorResource =
      false ∧
    (∀ u range,
      (constructFromData env anchorId (ContentRefData.resource u range)).context.chatAnchorResource =
        some (URI.toStr u)) :=
  ⟨rfl, rfl, fun _ _ => rfl⟩

/-- Helper: a widget that registered no registry-change listener never updates its
provider keys, whatever notifications arrive later. -/
theorem runProviderEvents_of_unsubscribed (w : WidgetResult)
    (hd : w.subscribesDefinitionProviderChange = false)
    (hr : w.subscribesReferenceProviderChange = false) :
    ∀ (events : List (Env × ProviderEvent)) (keys : ProviderKeys),
      runProviderEvents w keys events = keys := by
  intro events
  induction events with
  | nil => intro keys; rfl
  | cons head rest ih =>
    intro keys
    obtain ⟨env, e⟩ := head
    have hstep : stepProviderEvent env w keys e = keys := by
      cases e <;> simp [stepProviderEvent, hd, hr]
    rw [runProviderEvents, hstep]
    exact ih keys

/-- Claim C10: when `modelService.getModel` returns no model for the symbol's
location uri at construction (line 109), the guarded block is skipped entirely:
neither capability key is ever bound, no registry-change listener is registered,
and the keys stay absent over any later sequence of registry notifications — even
ones delivered under environments where the model exists. -/
theorem symbol_without_model_inert (env : Env) (anchorId : String)
    (s : IWorkspaceSymbol) (h : env.getModel s.location.uri = none) :
    (constructFromData env anchorId (ContentRefData.symbol s)).context.providerKeys =
      { hasDefinitionProvider := none, hasReferenceProvider := none } ∧
    (constructFromData env anchorId (ContentRefData.symbol s)).subscribesDefinitionProviderChange =
      false ∧
    (constructFromData env anchorId (ContentRefData.symbol s)).subscribesReferenceProviderChange =
      false ∧
    ∀ events : List (Env × ProviderEvent),
      runProviderEvents (constructFromData env anchorId (ContentRefData.symbol s))
        (constructFromData env anchorId (ContentRefData.symbol s)).context.providerKeys
        events =
        { hasDefinitionProvider := none, hasReferenceProvider := none } := by
  have hkeys :
      (constructFromData env anchorId (ContentRefData.symbol s)).context.providerKeys =
        { hasDefinitionProvider := none, hasReferenceProvider := none } := by
    simp [constructFromData, h]
  have hd :
      (constructFromData env anchorId (ContentRefData.symbol s)).subscribesDefinitionProviderChange =
        false := by
    simp [constructFromData, h]
  have hr :
      (constructFromData env anchorId (ContentRefData.symbol s)).subscribesReferenceProviderChange =
        false := by
    simp [constructFromData, h]
  refine ⟨hkeys, hd, hr, fun events => ?_⟩
  rw [hkeys]
  exact runProviderEvents_of_unsubscribed _ hd hr events _

/-- Witness for C10 at a concrete symbol and an environment with no loaded model. -/
theorem symbol_without_model_inert_witness :
    envNoModel.getModel symEx.location.uri = none ∧
    (constructFromData envNoModel "a" (ContentRefData.symbol symEx)).context.providerKeys =
      { hasDefinitionProvider := none, hasReferenceProvider := none } ∧
    (constructFromData envNoModel "a" (ContentRefData.symbol symEx)).subscribesDefinitionProviderChange =
      false :=
  ⟨rfl, (symbol_without_model_inert envNoModel "a" symEx rfl).1,
    (symbol_without_model_inert envNoModel "a" symEx rfl).2.1⟩

end ChatAnchor

